import Mathlib

/-!
Weather station: subscription state machine and result router.

A shallow embedding of `bricker/weatherstation/main.go`.

* The global `conf` becomes an explicit value of type `Conf` passed to and
  returned from every function.
* Every request handed to the bricker library (`conf.brick.Subscribe`,
  `conf.brick.Unsubscribe`, the `...Future` helpers) and every `fmt.Printf` is
  recorded, in program order, in a list of `Call`s.
* What the library answers is an input: the record `Bus`.
* `uint8`, `uint16` and `uint32` values are natural numbers; the program does
  no arithmetic on them, it only compares them.
-/

namespace Weatherstation

/-! ## Constants -/

/-- Default callback period in ms. -/
def period : Nat := 1000

/-- Connector name. -/
def cn : String := "ws"

/-- LCD bricklet device identifier. -/
def bl_lcd : Nat := 212

/-- Humidity bricklet device identifier. -/
def bl_humidity : Nat := 27

/-- Barometer bricklet device identifier. -/
def bl_barometer : Nat := 221

/-- Ambient light bricklet device identifier. -/
def bl_ambientlight : Nat := 21

/-- Temperature bricklet device identifier. -/
def bl_temperature : Nat := 216

/-- Flag for bricklet is subscribed. -/
def brickSubscribed : Nat := 1

/-- Flag for bricklet is unsubscribed. -/
def brickUnsubscribed : Nat := 2

/-- Flag for bricklet state is unchanged. -/
def brickUnchange : Nat := 0

/-! ## Values exchanged with the library -/

/-- A finite `float64`, held exactly as the dyadic rational `num / 2 ^ exp`.
It stands for what `v.Float64()` returns for a reading. -/
structure Float64 where
  num : Int
  exp : Nat
  deriving DecidableEq, Repr

/-- The value built by `ks0066.NewLcdTextLine(line, pos, txt)`. -/
structure LcdTextLine where
  line : Nat
  pos : Nat
  text : String
  deriving DecidableEq, Repr

/-- The subscriber objects (`*device.Device`) the program constructs, one
constructor per library constructor it calls, with the arguments it passes.
The callback argument is left out: it is `handler` everywhere except for
`WriteLine`, whose callback only prints an error text. -/
inductive Device where
  | ButtonPressed (name : String) (uid : Nat)
  | HumidityPeriod (name : String) (uid : Nat)
  | IlluminancePeriod (name : String) (uid : Nat)
  | AirPressurePeriod (name : String) (uid : Nat)
  | TemperaturePeriod (name : String) (uid : Nat)
  | GetChipTemperature (name : String) (uid : Nat)
  | WriteLine (name : String) (uid : Nat) (ltl : LcdTextLine)
  deriving DecidableEq, Repr

/-- The uid a subscriber object was constructed for. -/
def Device.uid : Device → Nat
  | .ButtonPressed _ u => u
  | .HumidityPeriod _ u => u
  | .IlluminancePeriod _ u => u
  | .AirPressurePeriod _ u => u
  | .TemperaturePeriod _ u => u
  | .GetChipTemperature _ u => u
  | .WriteLine _ u _ => u

/-- One observable action of the program: a request handed to the bricker
library or a line printed with `fmt.Printf`. -/
inductive Call where
  | Subscribe (sub : Option Device) (conn : String)
  | Unsubscribe (sub : Option Device)
  | ClearDisplayFuture (conn : String) (uid : Nat)
  | BacklightOnFuture (conn : String) (uid : Nat)
  | BacklightOffFuture (conn : String) (uid : Nat)
  | IsBacklightOnFuture (conn : String) (uid : Nat)
  | SetHumidityCallbackPeriodFuture (conn : String) (uid : Nat) (value : Nat)
  | SetIlluminanceCallbackPeriodFuture (conn : String) (uid : Nat) (value : Nat)
  | SetAirPressureCallbackPeriodFuture (conn : String) (uid : Nat) (value : Nat)
  | SetTemperatureCallbackPeriodFuture (conn : String) (uid : Nat) (value : Nat)
  | Printf (out : String)
  deriving DecidableEq, Repr

/-- What the bricker library answers. `Subscribe` and `Unsubscribe` say
whether the call returns a non-nil error; `IsBacklightOnFuture` is `none` for
a nil result and `some b` for a result whose `IsOn` field is `b`. -/
structure Bus where
  Subscribe : Option Device → String → Bool
  Unsubscribe : Option Device → Bool
  IsBacklightOnFuture : String → Nat → Option Bool

/-- A presence notification (`*enumerate.Enumeration`): the fields and the
`IntUid()` value that `hardwareidentify` reads. -/
structure Enumeration where
  EnumerationType : Nat
  DeviceIdentifer : Nat
  IntUid : Nat
  deriving DecidableEq, Repr

/-- A reading (`device.Resulter`) by dynamic type, as the type switch of
`workOnResult` tells them apart; the numeric variants carry `v.Float64()`.
`Other` stands for every dynamic type the switch has no case for. -/
inductive Resulter where
  | Humidity (v : Float64)
  | Illuminance (v : Float64)
  | AirPressure (v : Float64)
  | BarometerTemperature (v : Float64)
  | Temperature (v : Float64)
  | Button
  | Other (tag : Nat)
  deriving DecidableEq, Repr

/-! ## Registry -/

/-- The bricklet type for remembering important data. The field `cb` is not
a field here: `main` fixes it per key and nothing changes it, see `cb`. -/
structure bricklet where
  has : Bool
  sub : Option Device
  uid : Nat
  deriving DecidableEq, Repr

/-- The five keys of the map `conf.bricklets` built in `main`. -/
inductive Key where
  | lcd
  | humidity
  | barometer
  | ambientlight
  | temperature
  deriving DecidableEq, Repr

/-- The device identifier under which a key is stored in `conf.bricklets`. -/
def Key.id : Key → Nat
  | .lcd => bl_lcd
  | .humidity => bl_humidity
  | .barometer => bl_barometer
  | .ambientlight => bl_ambientlight
  | .temperature => bl_temperature

/-- The map lookup `conf.bricklets[id]` with its `ok` flag. -/
def lookup (id : Nat) : Option Key :=
  if id = bl_lcd then some Key.lcd
  else if id = bl_humidity then some Key.humidity
  else if id = bl_barometer then some Key.barometer
  else if id = bl_ambientlight then some Key.ambientlight
  else if id = bl_temperature then some Key.temperature
  else none

/-- The global `conf`: the console flag and the registry. The address and
the bricker object are not state of the model (the bricker is `Bus`). -/
structure Conf where
  showOnConsole : Bool
  bricklets : Key → bricklet

/-- Writing through the pointer stored under key `k`. -/
def Conf.set (c : Conf) (k : Key) (bl : bricklet) : Conf :=
  { c with bricklets := Function.update c.bricklets k bl }

/-- The registry as `main` creates it: every slot `has: false`, the other
fields at their zero value. -/
def Conf.init (soc : Bool) : Conf :=
  { showOnConsole := soc, bricklets := fun _ => { has := false, sub := none, uid := 0 } }

/-! ## Subscription state machine -/

/-- What a call of `workOnBricklet` leaves behind: the bricklet it wrote
through the pointer, the calls it made and its return value. -/
structure Worked where
  bl : bricklet
  calls : List Call
  result : Nat

/-- The function `workOnBricklet`: subscribe or unsubscribe a bricklet
handler. The error returned by the bricker is assigned to `_`. -/
def workOnBricklet (bus : Bus) (bl : bricklet) : Worked :=
  if bl.uid > 0 then
    if !bl.has then
      let bl1 : bricklet := { bl with has := true }
      let _err := bus.Subscribe bl1.sub cn
      { bl := bl1, calls := [Call.Subscribe bl1.sub cn], result := brickSubscribed }
    else
      { bl := bl, calls := [], result := brickUnchange }
  else
    if bl.has then
      let bl1 : bricklet := { bl with has := false }
      let _err := bus.Unsubscribe bl1.sub
      { bl := bl1, calls := [Call.Unsubscribe bl1.sub], result := brickUnsubscribed }
    else
      { bl := bl, calls := [], result := brickUnchange }

/-- What a handler (`workLcd`, `workHumidity`, ...) leaves behind: the new
`conf`, the calls it made, and the value of its local variable `s`. -/
structure Handled where
  conf : Conf
  calls : List Call
  s : Nat

/-- The function `workLcd`: register or unregister the subscriber for the LCD. -/
def workLcd (bus : Bus) (c : Conf) : Handled :=
  let bl := c.bricklets Key.lcd
  let bl : bricklet :=
    if bl.sub = none then { bl with sub := some (Device.ButtonPressed "Button" bl.uid) } else bl
  let w := workOnBricklet bus bl
  let bl := w.bl
  if w.result = brickSubscribed then
    { conf := c.set Key.lcd bl,
      calls := w.calls ++ [Call.ClearDisplayFuture cn bl.uid, Call.BacklightOnFuture cn bl.uid],
      s := w.result }
  else
    { conf := c.set Key.lcd bl, calls := w.calls, s := w.result }

/-- The function `workHumidity`. -/
def workHumidity (bus : Bus) (c : Conf) : Handled :=
  let bl := c.bricklets Key.humidity
  let bl : bricklet :=
    if bl.sub = none then { bl with sub := some (Device.HumidityPeriod "Humidity" bl.uid) } else bl
  let w := workOnBricklet bus bl
  let bl := w.bl
  if w.result = brickSubscribed then
    { conf := c.set Key.humidity bl,
      calls := w.calls ++ [Call.SetHumidityCallbackPeriodFuture cn bl.uid period],
      s := w.result }
  else if w.result = brickUnsubscribed then
    { conf := c.set Key.humidity bl,
      calls := w.calls ++ [Call.SetHumidityCallbackPeriodFuture cn bl.uid 0],
      s := w.result }
  else
    { conf := c.set Key.humidity bl, calls := w.calls, s := w.result }

/-- The function `workAmbientlight`. -/
def workAmbientlight (bus : Bus) (c : Conf) : Handled :=
  let bl := c.bricklets Key.ambientlight
  let bl : bricklet :=
    if bl.sub = none then
      { bl with sub := some (Device.IlluminancePeriod "Illuminance" bl.uid) }
    else bl
  let w := workOnBricklet bus bl
  let bl := w.bl
  if w.result = brickSubscribed then
    { conf := c.set Key.ambientlight bl,
      calls := w.calls ++ [Call.SetIlluminanceCallbackPeriodFuture cn bl.uid period],
      s := w.result }
  else if w.result = brickUnsubscribed then
    { conf := c.set Key.ambientlight bl,
      calls := w.calls ++ [Call.SetIlluminanceCallbackPeriodFuture cn bl.uid 0],
      s := w.result }
  else
    { conf := c.set Key.ambientlight bl, calls := w.calls, s := w.result }

/-- The function `workBarometer`. -/
def workBarometer (bus : Bus) (c : Conf) : Handled :=
  let bl := c.bricklets Key.barometer
  let bl : bricklet :=
    if bl.sub = none then
      { bl with sub := some (Device.AirPressurePeriod "AirPressure" bl.uid) }
    else bl
  let w := workOnBricklet bus bl
  let bl := w.bl
  if w.result = brickSubscribed then
    { conf := c.set Key.barometer bl,
      calls := w.calls ++ [Call.SetAirPressureCallbackPeriodFuture cn bl.uid period],
      s := w.result }
  else if w.result = brickUnsubscribed then
    { conf := c.set Key.barometer bl,
      calls := w.calls ++ [Call.SetAirPressureCallbackPeriodFuture cn bl.uid 0],
      s := w.result }
  else
    { conf := c.set Key.barometer bl, calls := w.calls, s := w.result }

/-- The function `workTemp`. -/
def workTemp (bus : Bus) (c : Conf) : Handled :=
  let bl := c.bricklets Key.temperature
  let bl : bricklet :=
    if bl.sub = none then
      { bl with sub := some (Device.TemperaturePeriod "Temperature" bl.uid) }
    else bl
  let w := workOnBricklet bus bl
  let bl := w.bl
  if w.result = brickSubscribed then
    { conf := c.set Key.temperature bl,
      calls := w.calls ++ [Call.SetTemperatureCallbackPeriodFuture cn bl.uid period],
      s := w.result }
  else if w.result = brickUnsubscribed then
    { conf := c.set Key.temperature bl,
      calls := w.calls ++ [Call.SetTemperatureCallbackPeriodFuture cn bl.uid 0],
      s := w.result }
  else
    { conf := c.set Key.temperature bl, calls := w.calls, s := w.result }

/-- The field `cb` of each entry of the map literal in `main`. -/
def cb : Key → Bus → Conf → Handled
  | .lcd => workLcd
  | .humidity => workHumidity
  | .barometer => workBarometer
  | .ambientlight => workAmbientlight
  | .temperature => workTemp

/-- One turn of the loop of `hardwareidentify`, for the notification `value`
taken from the channel. `disc` is the library constant
`enumerate.EnumerationTypeDisconneted`. -/
def hardwareidentifyStep (bus : Bus) (disc : Nat) (c : Conf) (value : Enumeration) :
    Conf × List Call :=
  let uid : Nat := if value.EnumerationType ≠ disc then value.IntUid else 0
  match lookup value.DeviceIdentifer with
  | some k =>
    let h := cb k bus (c.set k { c.bricklets k with uid := uid })
    (h.conf, h.calls)
  | none => (c, [])

/-- The loop of `hardwareidentify` run on the notifications `vs`, in the
order in which they arrive on the channel. -/
def hardwareidentify (bus : Bus) (disc : Nat) (c : Conf) : List Enumeration → Conf × List Call
  | [] => (c, [])
  | value :: vs =>
    let r := hardwareidentifyStep bus disc c value
    let rest := hardwareidentify bus disc r.1 vs
    (rest.1, r.2 ++ rest.2)

/-! ## Result router -/

/-- The quotient `n / d` rounded to the nearest integer, ties to even. -/
def roundHalfEven (n d : Nat) : Nat :=
  let q := n / d
  let r := n % d
  if 2 * r > d ∨ (2 * r = d ∧ q % 2 = 1) then q + 1 else q

/-- Padding on the left with `pad` up to `width` characters. -/
def padLeft (width : Nat) (pad : Char) (s : String) : String :=
  String.mk (List.replicate (width - s.length) pad) ++ s

/-- The verb `%W.Pf` of `fmt.Sprintf` (here `%6.2f`, `%7.2f`, `%5.2f`) on a
finite `float64`: the exact value rounded to `prec` decimals, ties to even,
a minus sign for a negative value, right-justified with spaces in a field of
at least `width` characters. -/
def fmtF (width prec : Nat) (x : Float64) : String :=
  let n := roundHalfEven (x.num.natAbs * 10 ^ prec) (2 ^ x.exp)
  let frac := if prec = 0 then "" else "." ++ padLeft prec '0' (toString (n % 10 ^ prec))
  padLeft width ' ' ((if x.num < 0 then "-" else "") ++ toString (n / 10 ^ prec) ++ frac)

/-- The function `workOnResult`: the base routine to work on every sensor data
input. It reads `conf` and changes nothing in it; the result is the list of
calls it makes. `r = none` is the nil interface value. -/
def workOnResult (bus : Bus) (c : Conf) (r : Option Resulter) : List Call :=
  match r with
  | none => []
  | some r =>
    let lcd := c.bricklets Key.lcd
    let sw : Nat × String × List Call :=
      match r with
      | .Humidity v => (1, "Hum.: " ++ fmtF 6 2 v ++ " %RH      ", [])
      | .Illuminance v => (3, "Ill.: " ++ fmtF 6 2 v ++ " lx", [])
      | .AirPressure v =>
        (2, "Air.: " ++ fmtF 7 2 v ++ " mbar",
          if !(c.bricklets Key.temperature).has then
            [Call.Subscribe
              (some (Device.GetChipTemperature "" (c.bricklets Key.barometer).uid)) cn]
          else [])
      | .BarometerTemperature v => (0, "Tem.: " ++ fmtF 5 2 v ++ " °C", [])
      | .Temperature v => (0, "Tem.: " ++ fmtF 5 2 v ++ " °C", [])
      | .Button =>
        (0, "",
          Call.IsBacklightOnFuture cn lcd.uid ::
            (match bus.IsBacklightOnFuture cn lcd.uid with
              | none => []
              | some true => [Call.BacklightOffFuture cn lcd.uid]
              | some false => [Call.BacklightOnFuture cn lcd.uid]))
      | .Other _ => (0, "", [])
    let line := sw.1
    let txt := sw.2.1
    sw.2.2 ++
      (if txt ≠ "" then
        (if lcd.has then
          [Call.Subscribe (some (Device.WriteLine "" lcd.uid
            { line := line, pos := 0, text := txt })) cn]
        else []) ++
        (if c.showOnConsole then [Call.Printf (txt ++ "\n")] else [])
      else [])

/-- The function `handler`: the default handler for output the values. `err`
says whether the error argument is non-nil. -/
def handler (bus : Bus) (c : Conf) (r : Option Resulter) (err : Bool) : List Call :=
  if err = false ∧ r ≠ none then workOnResult bus c r else []

/-! ## Observations on calls and notifications -/

/-- A call of `conf.brick.Subscribe`. -/
def Call.isSubscribe : Call → Bool
  | .Subscribe _ _ => true
  | _ => false

/-- A call of `conf.brick.Unsubscribe`. -/
def Call.isUnsubscribe : Call → Bool
  | .Unsubscribe _ => true
  | _ => false

/-- Number of `conf.brick.Subscribe` calls in a list of calls. -/
def subscribes (cs : List Call) : Nat := cs.countP Call.isSubscribe

/-- Number of `conf.brick.Unsubscribe` calls in a list of calls. -/
def unsubscribes (cs : List Call) : Nat := cs.countP Call.isUnsubscribe

/-- The effective uid that `hardwareidentify` computes for a notification:
its `IntUid()` unless it is a disconnect, 0 when it is. -/
def effectiveUid (disc : Nat) (value : Enumeration) : Nat :=
  if value.EnumerationType ≠ disc then value.IntUid else 0

/-- A bricker that answers every subscribe and unsubscribe with an error. -/
def rejectAll : Bus :=
  { Subscribe := fun _ _ => true, Unsubscribe := fun _ => true,
    IsBacklightOnFuture := fun _ _ => none }

/-- A bricker that accepts every request and reports the backlight state `isOn`. -/
def acceptAll (isOn : Bool) : Bus :=
  { Subscribe := fun _ _ => false, Unsubscribe := fun _ => false,
    IsBacklightOnFuture := fun _ _ => some isOn }

/-! ## Shape of the handlers -/

/-- The subscriber a handler constructs when the slot has none. -/
def newSub : Key → Nat → Device
  | .lcd, u => Device.ButtonPressed "Button" u
  | .humidity, u => Device.HumidityPeriod "Humidity" u
  | .barometer, u => Device.AirPressurePeriod "AirPressure" u
  | .ambientlight, u => Device.IlluminancePeriod "Illuminance" u
  | .temperature, u => Device.TemperaturePeriod "Temperature" u

/-- The slot after the `if bl.sub == nil` block of a handler. -/
def lazySub (k : Key) (bl : bricklet) : bricklet :=
  if bl.sub = none then { bl with sub := some (newSub k bl.uid) } else bl

/-- The requests a handler adds after `workOnBricklet` returned `s`. -/
def followUp : Key → Nat → Nat → List Call
  | .lcd, s, u =>
    if s = brickSubscribed then [Call.ClearDisplayFuture cn u, Call.BacklightOnFuture cn u]
    else []
  | .humidity, s, u =>
    if s = brickSubscribed then [Call.SetHumidityCallbackPeriodFuture cn u period]
    else if s = brickUnsubscribed then [Call.SetHumidityCallbackPeriodFuture cn u 0] else []
  | .barometer, s, u =>
    if s = brickSubscribed then [Call.SetAirPressureCallbackPeriodFuture cn u period]
    else if s = brickUnsubscribed then [Call.SetAirPressureCallbackPeriodFuture cn u 0] else []
  | .ambientlight, s, u =>
    if s = brickSubscribed then [Call.SetIlluminanceCallbackPeriodFuture cn u period]
    else if s = brickUnsubscribed then [Call.SetIlluminanceCallbackPeriodFuture cn u 0] else []
  | .temperature, s, u =>
    if s = brickSubscribed then [Call.SetTemperatureCallbackPeriodFuture cn u period]
    else if s = brickUnsubscribed then [Call.SetTemperatureCallbackPeriodFuture cn u 0] else []

/-! ## Presence sequences and edges -/

/-- The effective presence a notification announces: its effective uid is
non-zero. -/
def present (disc : Nat) (value : Enumeration) : Bool :=
  decide (effectiveUid disc value ≠ 0)

/-- Number of `became present` edges in a sequence of presences that follows
the presence `prev`. -/
def risingEdges : Bool → List Bool → Nat
  | _, [] => 0
  | prev, p :: ps => (if p && !prev then 1 else 0) + risingEdges p ps

/-- A subscribe is `some true`, an unsubscribe `some false`, any other call
`none`. -/
def Call.busOp : Call → Option Bool
  | .Subscribe _ _ => some true
  | .Unsubscribe _ => some false
  | _ => none

/-- The subscribe and unsubscribe calls of a list of calls, in order. -/
def busOps (cs : List Call) : List Bool := cs.filterMap Call.busOp

/-- The operations an edge detector emits on a sequence of presences,
starting in state `h`. -/
def edgeOps : Bool → List Bool → List Bool
  | _, [] => []
  | h, p :: ps => if p = h then edgeOps p ps else p :: edgeOps p ps

/-- No element of the list equals its predecessor; `prev` precedes the head. -/
def alternates : Bool → List Bool → Bool
  | _, [] => true
  | prev, x :: xs => (x != prev) && alternates x xs

/-! ## Observations on routed readings -/

/-- The uids to which the calls request the barometer chip temperature. -/
def chipTemperatureRequests (cs : List Call) : List Nat :=
  cs.filterMap fun x =>
    match x with
    | .Subscribe (some (.GetChipTemperature _ u)) _ => some u
    | _ => none

/-- The text lines the calls write to the display. -/
def displayWrites (cs : List Call) : List LcdTextLine :=
  cs.filterMap fun x =>
    match x with
    | .Subscribe (some (.WriteLine _ _ ltl)) _ => some ltl
    | _ => none

/-- The texts the calls print on the console. -/
def consoleLines (cs : List Call) : List String :=
  cs.filterMap fun x =>
    match x with
    | .Printf out => some out
    | _ => none

/-- A backlight state query. -/
def Call.isBacklightQuery : Call → Bool
  | .IsBacklightOnFuture _ _ => true
  | _ => false

/-- A backlight on command. -/
def Call.isBacklightOn : Call → Bool
  | .BacklightOnFuture _ _ => true
  | _ => false

/-- A backlight off command. -/
def Call.isBacklightOff : Call → Bool
  | .BacklightOffFuture _ _ => true
  | _ => false

/-- The display line of a text-producing variant, `none` for every other
reading. -/
def lineOf : Option Resulter → Option Nat
  | some (.Humidity _) => some 1
  | some (.AirPressure _) => some 2
  | some (.Illuminance _) => some 3
  | some (.BarometerTemperature _) => some 0
  | some (.Temperature _) => some 0
  | _ => none

/-- The text `workOnResult` formats for a text-producing variant. -/
def textOf : Option Resulter → String
  | some (.Humidity v) => "Hum.: " ++ fmtF 6 2 v ++ " %RH      "
  | some (.Illuminance v) => "Ill.: " ++ fmtF 6 2 v ++ " lx"
  | some (.AirPressure v) => "Air.: " ++ fmtF 7 2 v ++ " mbar"
  | some (.BarometerTemperature v) => "Tem.: " ++ fmtF 5 2 v ++ " °C"
  | some (.Temperature v) => "Tem.: " ++ fmtF 5 2 v ++ " °C"
  | _ => ""

/-! ## The handlers and `workOnBricklet` -/

theorem cb_conf (k : Key) (bus : Bus) (c : Conf) :
    (cb k bus c).conf = c.set k (workOnBricklet bus (lazySub k (c.bricklets k))).bl := by
  cases k <;> simp only [cb, workLcd, workHumidity, workBarometer, workAmbientlight, workTemp,
    lazySub, newSub] <;> split_ifs <;> rfl

theorem cb_s (k : Key) (bus : Bus) (c : Conf) :
    (cb k bus c).s = (workOnBricklet bus (lazySub k (c.bricklets k))).result := by
  cases k <;> simp only [cb, workLcd, workHumidity, workBarometer, workAmbientlight, workTemp,
    lazySub, newSub] <;> split_ifs <;> rfl

theorem cb_calls (k : Key) (bus : Bus) (c : Conf) :
    (cb k bus c).calls =
      (workOnBricklet bus (lazySub k (c.bricklets k))).calls ++
        followUp k (workOnBricklet bus (lazySub k (c.bricklets k))).result
          (workOnBricklet bus (lazySub k (c.bricklets k))).bl.uid := by
  cases k <;> simp only [cb, workLcd, workHumidity, workBarometer, workAmbientlight, workTemp,
    lazySub, newSub, followUp] <;> split_ifs <;> simp

theorem lazySub_has (k : Key) (bl : bricklet) : (lazySub k bl).has = bl.has := by
  unfold lazySub; split_ifs <;> rfl

theorem lazySub_uid (k : Key) (bl : bricklet) : (lazySub k bl).uid = bl.uid := by
  unfold lazySub; split_ifs <;> rfl

theorem followUp_subscribes (k : Key) (s u : Nat) : subscribes (followUp k s u) = 0 := by
  cases k <;> simp only [followUp] <;> split_ifs <;> rfl

theorem followUp_unsubscribes (k : Key) (s u : Nat) : unsubscribes (followUp k s u) = 0 := by
  cases k <;> simp only [followUp] <;> split_ifs <;> rfl

theorem subscribes_append (a b : List Call) :
    subscribes (a ++ b) = subscribes a + subscribes b := by
  simp [subscribes]

theorem unsubscribes_append (a b : List Call) :
    unsubscribes (a ++ b) = unsubscribes a + unsubscribes b := by
  simp [unsubscribes]

/-- Every key is found under its own device identifier. -/
theorem lookup_id (k : Key) : lookup k.id = some k := by
  cases k <;> decide

theorem Conf.set_same (c : Conf) (k : Key) (bl : bricklet) : (c.set k bl).bricklets k = bl := by
  simp [Conf.set]

/-- What `workOnBricklet` does, by the four cases of uid and `has`. -/
theorem workOnBricklet_cases (bus : Bus) (bl : bricklet) :
    (bl.uid ≠ 0 ∧ bl.has = false ∧
        workOnBricklet bus bl =
          { bl := { bl with has := true }, calls := [Call.Subscribe bl.sub cn],
            result := brickSubscribed }) ∨
      (bl.uid = 0 ∧ bl.has = true ∧
        workOnBricklet bus bl =
          { bl := { bl with has := false }, calls := [Call.Unsubscribe bl.sub],
            result := brickUnsubscribed }) ∨
      (((bl.uid ≠ 0 ∧ bl.has = true) ∨ (bl.uid = 0 ∧ bl.has = false)) ∧
        workOnBricklet bus bl = { bl := bl, calls := [], result := brickUnchange }) := by
  rcases bl with ⟨has, sub, uid⟩
  rcases Nat.eq_zero_or_pos uid with hu | hu <;> cases has <;>
    simp [workOnBricklet, hu, Nat.pos_iff_ne_zero.mp, Nat.ne_of_gt]

/-- The return value, the flag and the calls of `workOnBricklet`, for every
slot. -/
theorem workOnBricklet_spec (bus : Bus) (bl : bricklet) :
    ((workOnBricklet bus bl).result = brickSubscribed ↔ bl.uid ≠ 0 ∧ bl.has = false) ∧
    ((workOnBricklet bus bl).result = brickUnsubscribed ↔ bl.uid = 0 ∧ bl.has = true) ∧
    ((workOnBricklet bus bl).result = brickSubscribed →
      (workOnBricklet bus bl).bl = { bl with has := true } ∧
      (workOnBricklet bus bl).calls = [Call.Subscribe bl.sub cn]) ∧
    ((workOnBricklet bus bl).result = brickUnsubscribed →
      (workOnBricklet bus bl).bl = { bl with has := false } ∧
      (workOnBricklet bus bl).calls = [Call.Unsubscribe bl.sub]) ∧
    ((workOnBricklet bus bl).result ≠ brickSubscribed →
      (workOnBricklet bus bl).result ≠ brickUnsubscribed →
      (workOnBricklet bus bl).result = brickUnchange ∧
      (workOnBricklet bus bl).bl = bl ∧ (workOnBricklet bus bl).calls = []) := by
  rcases workOnBricklet_cases bus bl with ⟨hu, hh, e⟩ | ⟨hu, hh, e⟩ | ⟨hc, e⟩
  · rw [e]; simp [hu, hh, brickSubscribed, brickUnsubscribed]
  · rw [e]; simp [hu, hh, brickSubscribed, brickUnsubscribed]
  · rw [e]
    rcases hc with ⟨hu, hh⟩ | ⟨hu, hh⟩ <;>
      simp [hu, hh, brickSubscribed, brickUnsubscribed, brickUnchange]

/-- After `workOnBricklet` the flag `has` says whether the uid is non-zero. -/
theorem workOnBricklet_has (bus : Bus) (bl : bricklet) :
    (workOnBricklet bus bl).bl.has = decide (bl.uid ≠ 0) := by
  rcases workOnBricklet_cases bus bl with ⟨hu, hh, e⟩ | ⟨hu, hh, e⟩ | ⟨hc, e⟩
  · rw [e]; simp [hu]
  · rw [e]; simp [hu]
  · rw [e]; rcases hc with ⟨hu, hh⟩ | ⟨hu, hh⟩ <;> simp [hu, hh]

/-- `workOnBricklet` changes neither the uid nor the subscriber of the slot. -/
theorem workOnBricklet_keeps (bus : Bus) (bl : bricklet) :
    (workOnBricklet bus bl).bl.uid = bl.uid ∧ (workOnBricklet bus bl).bl.sub = bl.sub := by
  rcases workOnBricklet_cases bus bl with ⟨hu, hh, e⟩ | ⟨hu, hh, e⟩ | ⟨hc, e⟩ <;> rw [e] <;> simp

/-- The step of `hardwareidentify` for a known device type is the handler of
that type, run after the effective uid was stored in the slot. -/
theorem hardwareidentifyStep_known (bus : Bus) (disc : Nat) (c : Conf) (value : Enumeration)
    (k : Key) (hk : lookup value.DeviceIdentifer = some k) :
    hardwareidentifyStep bus disc c value =
      ((cb k bus (c.set k { c.bricklets k with uid := effectiveUid disc value })).conf,
       (cb k bus (c.set k { c.bricklets k with uid := effectiveUid disc value })).calls) := by
  simp only [hardwareidentifyStep, hk, effectiveUid]

/-- Claim C1. For every registry state and every presence notification of a
known device type, with uid the notification's uid unless it is a disconnect
and 0 when it is: the handler's `workOnBricklet` returns Subscribed exactly
when uid is non-zero and the slot was not present (the flag is then set and
exactly one bus subscribe is issued), Unsubscribed exactly when uid is zero
and the slot was present (flag cleared, exactly one bus unsubscribe), and
otherwise Unchanged with the flag untouched and no bus subscribe or
unsubscribe; a notification whose uid is zero never subscribes, whatever its
enumeration type, and announcing a present unit again is Unchanged. The same
holds for `workOnBricklet` on every slot. -/
theorem workOnBricklet_transition (bus : Bus) (disc : Nat) (c : Conf) (value : Enumeration)
    (k : Key) (hk : lookup value.DeviceIdentifer = some k) :
    let uid := if value.EnumerationType ≠ disc then value.IntUid else 0
    let before := c.bricklets k
    let h := cb k bus (c.set k { before with uid := uid })
    let after := h.conf.bricklets k
    hardwareidentifyStep bus disc c value = (h.conf, h.calls) ∧
    (h.s = brickSubscribed ↔ uid ≠ 0 ∧ before.has = false) ∧
    (h.s = brickUnsubscribed ↔ uid = 0 ∧ before.has = true) ∧
    (h.s = brickSubscribed →
      after.has = true ∧ subscribes h.calls = 1 ∧ unsubscribes h.calls = 0) ∧
    (h.s = brickUnsubscribed →
      after.has = false ∧ subscribes h.calls = 0 ∧ unsubscribes h.calls = 1) ∧
    (h.s ≠ brickSubscribed → h.s ≠ brickUnsubscribed →
      h.s = brickUnchange ∧ after.has = before.has ∧
      subscribes h.calls = 0 ∧ unsubscribes h.calls = 0) ∧
    (value.IntUid = 0 → h.s ≠ brickSubscribed ∧ after.has = false) ∧
    (uid ≠ 0 → before.has = true → h.s = brickUnchange) ∧
    (∀ bl : bricklet,
      ((workOnBricklet bus bl).result = brickSubscribed ↔ bl.uid ≠ 0 ∧ bl.has = false) ∧
      ((workOnBricklet bus bl).result = brickUnsubscribed ↔ bl.uid = 0 ∧ bl.has = true) ∧
      ((workOnBricklet bus bl).result = brickSubscribed →
        (workOnBricklet bus bl).bl = { bl with has := true } ∧
        (workOnBricklet bus bl).calls = [Call.Subscribe bl.sub cn]) ∧
      ((workOnBricklet bus bl).result = brickUnsubscribed →
        (workOnBricklet bus bl).bl = { bl with has := false } ∧
        (workOnBricklet bus bl).calls = [Call.Unsubscribe bl.sub]) ∧
      ((workOnBricklet bus bl).result ≠ brickSubscribed →
        (workOnBricklet bus bl).result ≠ brickUnsubscribed →
        (workOnBricklet bus bl).result = brickUnchange ∧
        (workOnBricklet bus bl).bl = bl ∧ (workOnBricklet bus bl).calls = [])) := by
  intro uid before h after
  have hstep := hardwareidentifyStep_known bus disc c value k hk
  have hafter : after = (workOnBricklet bus (lazySub k { before with uid := uid })).bl := by
    show (cb k bus _).conf.bricklets k = _
    rw [cb_conf, Conf.set_same, Conf.set_same]
  have hs : h.s = (workOnBricklet bus (lazySub k { before with uid := uid })).result := by
    show (cb k bus _).s = _
    rw [cb_s, Conf.set_same]
  have hcalls : h.calls =
      (workOnBricklet bus (lazySub k { before with uid := uid })).calls ++
        followUp k (workOnBricklet bus (lazySub k { before with uid := uid })).result
          (workOnBricklet bus (lazySub k { before with uid := uid })).bl.uid := by
    show (cb k bus _).calls = _
    rw [cb_calls, Conf.set_same]
  have hL1 : (lazySub k { before with uid := uid }).has = before.has := lazySub_has _ _
  have hL2 : (lazySub k { before with uid := uid }).uid = uid := lazySub_uid _ _
  obtain ⟨w1, w2, w3, w4, w5⟩ := workOnBricklet_spec bus (lazySub k { before with uid := uid })
  rw [hL1, hL2] at w1 w2
  refine ⟨hstep, ?_, ?_, ?_, ?_, ?_, ?_, ?_, workOnBricklet_spec bus⟩
  · rw [hs]; exact w1
  · rw [hs]; exact w2
  · intro hsub
    rw [hs] at hsub
    obtain ⟨e1, e2⟩ := w3 hsub
    rw [hafter, hcalls, e1, e2, subscribes_append, unsubscribes_append, followUp_subscribes,
      followUp_unsubscribes]
    simp [subscribes, unsubscribes, Call.isSubscribe, Call.isUnsubscribe]
  · intro hsub
    rw [hs] at hsub
    obtain ⟨e1, e2⟩ := w4 hsub
    rw [hafter, hcalls, e1, e2, subscribes_append, unsubscribes_append, followUp_subscribes,
      followUp_unsubscribes]
    simp [subscribes, unsubscribes, Call.isSubscribe, Call.isUnsubscribe]
  · intro n1 n2
    rw [hs] at n1 n2
    obtain ⟨e0, e1, e2⟩ := w5 n1 n2
    rw [hs, hafter, hcalls, e1, e2, subscribes_append, unsubscribes_append, followUp_subscribes,
      followUp_unsubscribes, hL1]
    exact ⟨e0, rfl, rfl, rfl⟩
  · intro hz
    have hu : uid = 0 := by
      show (if value.EnumerationType ≠ disc then value.IntUid else 0) = 0
      split_ifs <;> simp [hz]
    constructor
    · rw [hs]; intro hc; exact (w1.mp hc).1 hu
    · rw [hafter, workOnBricklet_has, hL2]; simp [hu]
  · intro hu hh
    rw [hs]
    refine (w5 ?_ ?_).1
    · intro hc; have h2 := (w1.mp hc).2; rw [hh] at h2; exact Bool.noConfusion h2
    · intro hc; exact hu (w2.mp hc).1

/-- Witness of claim C1: a connect notification for uid 5 of the humidity
bricklet on the initial registry. -/
theorem workOnBricklet_transition_witness :
    lookup (Enumeration.mk 1 27 5).DeviceIdentifer = some Key.humidity ∧
    hardwareidentifyStep (acceptAll true) 2 (Conf.init false) (Enumeration.mk 1 27 5) =
      ((cb Key.humidity (acceptAll true)
          ((Conf.init false).set Key.humidity { has := false, sub := none, uid := 5 })).conf,
       (cb Key.humidity (acceptAll true)
          ((Conf.init false).set Key.humidity { has := false, sub := none, uid := 5 })).calls) :=
  ⟨by decide,
   (workOnBricklet_transition (acceptAll true) 2 (Conf.init false) (Enumeration.mk 1 27 5)
      Key.humidity (by decide)).1⟩

/-- Counterexample to claim C3 as stated: on the initial registry the
notifications connect(uid 5), disconnect for the humidity bricklet give a
subscribe followed by an unsubscribe, and afterwards the field `sub` of the
slot is not nil: it still holds the subscriber constructed for uid 5. -/
theorem sub_kept_after_unsubscribe :
    (hardwareidentify (acceptAll true) 2 (Conf.init false)
        [Enumeration.mk 1 27 5, Enumeration.mk 2 27 5]).2 =
      [Call.Subscribe (some (Device.HumidityPeriod "Humidity" 5)) "ws",
       Call.SetHumidityCallbackPeriodFuture "ws" 5 1000,
       Call.Unsubscribe (some (Device.HumidityPeriod "Humidity" 5)),
       Call.SetHumidityCallbackPeriodFuture "ws" 0 0] ∧
    ((hardwareidentify (acceptAll true) 2 (Conf.init false)
        [Enumeration.mk 1 27 5, Enumeration.mk 2 27 5]).1.bricklets Key.humidity).has = false ∧
    ((hardwareidentify (acceptAll true) 2 (Conf.init false)
        [Enumeration.mk 1 27 5, Enumeration.mk 2 27 5]).1.bricklets Key.humidity).sub =
      some (Device.HumidityPeriod "Humidity" 5) ∧
    ((hardwareidentify (acceptAll true) 2 (Conf.init false)
        [Enumeration.mk 1 27 5, Enumeration.mk 2 27 5]).1.bricklets Key.humidity).sub ≠ none := by
  decide

/-- Claim C3, amended. For every slot that starts absent with no subscriber
and every non-zero id, running the slot's handler for present(id) and then
for absent gives Subscribed and then Unsubscribed; after the second event
the slot is absent and its field `sub` is not nil: it is still the
subscriber that the first event constructed for id. -/
theorem present_then_absent (bus : Bus) (c : Conf) (k : Key) (id : Nat)
    (hhas : (c.bricklets k).has = false) (hsub : (c.bricklets k).sub = none) (hid : id ≠ 0) :
    (cb k bus (c.set k { c.bricklets k with uid := id })).s = brickSubscribed ∧
    (cb k bus
      ((cb k bus (c.set k { c.bricklets k with uid := id })).conf.set k
        { (cb k bus (c.set k { c.bricklets k with uid := id })).conf.bricklets k with
          uid := 0 })).s = brickUnsubscribed ∧
    ((cb k bus
      ((cb k bus (c.set k { c.bricklets k with uid := id })).conf.set k
        { (cb k bus (c.set k { c.bricklets k with uid := id })).conf.bricklets k with
          uid := 0 })).conf.bricklets k).has = false ∧
    ((cb k bus
      ((cb k bus (c.set k { c.bricklets k with uid := id })).conf.set k
        { (cb k bus (c.set k { c.bricklets k with uid := id })).conf.bricklets k with
          uid := 0 })).conf.bricklets k).sub =
      ((cb k bus (c.set k { c.bricklets k with uid := id })).conf.bricklets k).sub ∧
    ∃ d : Device,
      ((cb k bus
        ((cb k bus (c.set k { c.bricklets k with uid := id })).conf.set k
          { (cb k bus (c.set k { c.bricklets k with uid := id })).conf.bricklets k with
            uid := 0 })).conf.bricklets k).sub = some d ∧ d.uid = id := by
  have hpos : 0 < id := Nat.pos_of_ne_zero hid
  cases k <;>
    simp [cb, workLcd, workHumidity, workBarometer, workAmbientlight, workTemp, workOnBricklet,
      Conf.set, hhas, hsub, hid, hpos, brickSubscribed, brickUnsubscribed, brickUnchange,
      Device.uid]

/-- Witness of claim C3: the humidity slot of the initial registry, id 5. -/
theorem present_then_absent_witness :
    ((Conf.init false).bricklets Key.humidity).has = false ∧
    ((Conf.init false).bricklets Key.humidity).sub = none ∧ (5 : Nat) ≠ 0 ∧
    (cb Key.humidity (acceptAll true)
      ((Conf.init false).set Key.humidity
        { (Conf.init false).bricklets Key.humidity with uid := 5 })).s = brickSubscribed :=
  ⟨rfl, rfl, by decide,
   (present_then_absent (acceptAll true) (Conf.init false) Key.humidity 5 rfl rfl
      (by decide)).1⟩

/-- Counterexample to claim C4 as stated: the bricker rejects the subscribe
request issued for an absent slot with uid 5, and yet the flag `has` of the
slot changes from false to true; the next notification of the same kind then
issues no request. -/
theorem rejected_subscribe_changes_state :
    rejectAll.Subscribe (some (Device.HumidityPeriod "Humidity" 5)) cn = true ∧
    (workOnBricklet rejectAll
      { has := false, sub := some (Device.HumidityPeriod "Humidity" 5), uid := 5 }).calls =
      [Call.Subscribe (some (Device.HumidityPeriod "Humidity" 5)) cn] ∧
    (workOnBricklet rejectAll
      { has := false, sub := some (Device.HumidityPeriod "Humidity" 5), uid := 5 }).bl.has =
      true ∧
    (workOnBricklet rejectAll
      (workOnBricklet rejectAll
        { has := false, sub := some (Device.HumidityPeriod "Humidity" 5), uid := 5 }).bl).calls =
      [] := by
  decide

/-- Claim C4, amended. `workOnBricklet` discards the error the bricker
returns: what it does is the same for every answer of the bricker, its flag
`has` afterwards says whether the uid is non-zero also when the request was
rejected, and the next notification of the same kind (uid again non-zero, or
again zero) returns Unchanged and issues no request. -/
theorem workOnBricklet_discards_error (bus next : Bus) (bl : bricklet) :
    (∀ other : Bus, workOnBricklet other bl = workOnBricklet bus bl) ∧
    (workOnBricklet bus bl).bl.has = decide (bl.uid ≠ 0) ∧
    (∀ uid2 : Nat, (uid2 ≠ 0 ↔ bl.uid ≠ 0) →
      (workOnBricklet next { (workOnBricklet bus bl).bl with uid := uid2 }).result =
        brickUnchange ∧
      (workOnBricklet next { (workOnBricklet bus bl).bl with uid := uid2 }).calls = [] ∧
      (workOnBricklet next { (workOnBricklet bus bl).bl with uid := uid2 }).bl.has =
        (workOnBricklet bus bl).bl.has) := by
  refine ⟨fun other => rfl, workOnBricklet_has bus bl, ?_⟩
  intro uid2 hsame
  have hh := workOnBricklet_has bus bl
  rcases workOnBricklet_cases next { (workOnBricklet bus bl).bl with uid := uid2 } with
    ⟨hu, hf, _⟩ | ⟨hu, hf, _⟩ | ⟨_, e⟩
  · exfalso
    simp only at hu hf
    rw [hh] at hf
    have : bl.uid ≠ 0 := hsame.mp hu
    simp [this] at hf
  · exfalso
    simp only at hu hf
    rw [hh] at hf
    have : ¬ bl.uid ≠ 0 := fun hne => (hsame.mpr hne) hu
    simp at this
    simp [this] at hf
  · rw [e]; exact ⟨rfl, rfl, rfl⟩

/-! ## Replaying notifications of one device type -/

theorem busOps_append (a b : List Call) : busOps (a ++ b) = busOps a ++ busOps b := by
  simp [busOps]

theorem busOps_followUp (k : Key) (s u : Nat) : busOps (followUp k s u) = [] := by
  cases k <;> simp only [followUp] <;> split_ifs <;> rfl

theorem subscribes_eq_count (cs : List Call) : subscribes cs = (busOps cs).count true := by
  induction cs with
  | nil => rfl
  | cons x xs ih =>
    have ih2 : List.countP Call.isSubscribe xs = List.count true (List.filterMap Call.busOp xs) :=
      ih
    cases x <;>
      simp [subscribes, busOps, List.countP_cons, List.filterMap_cons, Call.isSubscribe,
        Call.busOp, ih2]

theorem mem_busOps_false (cs : List Call) (h : false ∈ busOps cs) :
    ∃ u ∈ cs, u.isUnsubscribe = true := by
  simp only [busOps, List.mem_filterMap] at h
  obtain ⟨u, hu, hop⟩ := h
  refine ⟨u, hu, ?_⟩
  cases u <;> simp [Call.busOp] at hop <;> rfl

theorem busOp_of_isSubscribe (x : Call) (h : x.isSubscribe = true) : x.busOp = some true := by
  cases x <;> simp [Call.isSubscribe] at h <;> rfl

theorem count_edgeOps (h : Bool) (ps : List Bool) :
    (edgeOps h ps).count true = risingEdges h ps := by
  induction ps generalizing h with
  | nil => rfl
  | cons p ps ih =>
    cases p <;> cases h <;> simp [edgeOps, risingEdges, ih, Nat.add_comm]

theorem alternates_edgeOps (h : Bool) (ps : List Bool) : alternates h (edgeOps h ps) = true := by
  induction ps generalizing h with
  | nil => rfl
  | cons p ps ih =>
    cases p <;> cases h <;> simp [edgeOps, alternates, ih]

theorem alternates_suffix (q : Bool) (a b : List Bool) (h : alternates q (a ++ b) = true) :
    ∃ q2, alternates q2 b = true := by
  induction a generalizing q with
  | nil => exact ⟨q, h⟩
  | cons x xs ih =>
    simp only [List.cons_append, alternates, Bool.and_eq_true] at h
    exact ih x h.2

theorem alternates_between (l d : List Bool) (h : alternates true (l ++ true :: d) = true) :
    false ∈ l := by
  cases l with
  | nil => simp [alternates] at h
  | cons x xs =>
    simp only [List.cons_append, alternates, Bool.and_eq_true] at h
    cases x
    · exact List.mem_cons_self _ _
    · simp at h

/-- The flag of the slot after a step for its device type. -/
theorem step_has (bus : Bus) (disc : Nat) (c : Conf) (value : Enumeration) (k : Key)
    (hk : lookup value.DeviceIdentifer = some k) :
    ((hardwareidentifyStep bus disc c value).1.bricklets k).has = present disc value := by
  rw [hardwareidentifyStep_known bus disc c value k hk]
  simp only [cb_conf, Conf.set_same, workOnBricklet_has, lazySub_uid, present]

/-- The subscribe and unsubscribe calls of a step for the slot's type. -/
theorem step_busOps (bus : Bus) (disc : Nat) (c : Conf) (value : Enumeration) (k : Key)
    (hk : lookup value.DeviceIdentifer = some k) :
    busOps (hardwareidentifyStep bus disc c value).2 =
      edgeOps (c.bricklets k).has [present disc value] := by
  rw [hardwareidentifyStep_known bus disc c value k hk]
  simp only [cb_calls, Conf.set_same, busOps_append, busOps_followUp, List.append_nil]
  have hL1 := lazySub_has k { c.bricklets k with uid := effectiveUid disc value }
  have hL2 := lazySub_uid k { c.bricklets k with uid := effectiveUid disc value }
  simp only at hL1 hL2
  rcases workOnBricklet_cases bus
      (lazySub k { c.bricklets k with uid := effectiveUid disc value }) with
    ⟨hu, hh, e⟩ | ⟨hu, hh, e⟩ | ⟨hc, e⟩
  · rw [e]; rw [hL1] at hh; rw [hL2] at hu
    simp [busOps, Call.busOp, edgeOps, present, hu, hh]
  · rw [e]; rw [hL1] at hh; rw [hL2] at hu
    simp [busOps, Call.busOp, edgeOps, present, hu, hh]
  · rw [e]; rw [hL1, hL2] at hc
    rcases hc with ⟨hu, hh⟩ | ⟨hu, hh⟩ <;> simp [busOps, edgeOps, present, hu, hh]

theorem edgeOps_cons (h p : Bool) (ps : List Bool) :
    edgeOps h (p :: ps) = edgeOps h [p] ++ edgeOps p ps := by
  cases p <;> cases h <;> simp [edgeOps]

/-- The flag of the slot and the subscribe and unsubscribe calls after a
replay of notifications that are all of the slot's type. -/
theorem replay_slot (bus : Bus) (disc : Nat) (k : Key) (vs : List Enumeration) (c : Conf)
    (hk : ∀ v ∈ vs, lookup v.DeviceIdentifer = some k) :
    ((hardwareidentify bus disc c vs).1.bricklets k).has =
        ((vs.getLast?).map (present disc)).getD (c.bricklets k).has ∧
      busOps (hardwareidentify bus disc c vs).2 =
        edgeOps (c.bricklets k).has (vs.map (present disc)) := by
  induction vs generalizing c with
  | nil => exact ⟨rfl, rfl⟩
  | cons v vs ih =>
    have hv := hk v (List.mem_cons_self _ _)
    have hrest : ∀ w ∈ vs, lookup w.DeviceIdentifer = some k :=
      fun w hw => hk w (List.mem_cons_of_mem _ hw)
    obtain ⟨ih1, ih2⟩ := ih (hardwareidentifyStep bus disc c v).1 hrest
    rw [step_has bus disc c v k hv] at ih1 ih2
    constructor
    · show ((hardwareidentify bus disc (hardwareidentifyStep bus disc c v).1 vs).1.bricklets k).has
        = _
      rw [ih1]
      cases vs with
      | nil => rfl
      | cons w ws =>
        obtain ⟨z, hz⟩ : ∃ z, (w :: ws).getLast? = some z :=
          ⟨(w :: ws).getLast (List.cons_ne_nil w ws), List.getLast?_eq_getLast _ _⟩
        rw [List.getLast?_cons_cons, hz]
        rfl
    · show busOps ((hardwareidentifyStep bus disc c v).2 ++
        (hardwareidentify bus disc (hardwareidentifyStep bus disc c v).1 vs).2) = _
      rw [busOps_append, ih2, step_busOps bus disc c v k hv, List.map_cons, ← edgeOps_cons]

/-- Claim C2. For every finite sequence of presence notifications of one
device type, replayed through `hardwareidentify` from a slot that starts
absent: the flag `has` ends as the effective presence of the last
notification; the step for a notification issues one bus subscribe when the
notification is present and its predecessor (or the start) was not, and none
otherwise, so the subscribe calls are as many as, and not more than, the
`became present` edges; and between any two subscribe calls of the replay
there is an unsubscribe call. -/
theorem hardwareidentify_edge_detector (bus : Bus) (disc : Nat) (c : Conf) (k : Key)
    (vs : List Enumeration) (h0 : (c.bricklets k).has = false)
    (hk : ∀ v ∈ vs, lookup v.DeviceIdentifer = some k) :
    (∀ v, vs.getLast? = some v →
      ((hardwareidentify bus disc c vs).1.bricklets k).has = present disc v) ∧
    subscribes (hardwareidentify bus disc c vs).2 =
      risingEdges false (vs.map (present disc)) ∧
    subscribes (hardwareidentify bus disc c vs).2 ≤
      risingEdges false (vs.map (present disc)) ∧
    (∀ pre v post, vs = pre ++ v :: post →
      subscribes (hardwareidentifyStep bus disc (hardwareidentify bus disc c pre).1 v).2 =
        if present disc v = true ∧ ((pre.getLast?).map (present disc)).getD false = false
        then 1 else 0) ∧
    (∀ a s1 b s2 d, (hardwareidentify bus disc c vs).2 = a ++ s1 :: (b ++ s2 :: d) →
      s1.isSubscribe = true → s2.isSubscribe = true → ∃ u ∈ b, u.isUnsubscribe = true) := by
  obtain ⟨r1, r2⟩ := replay_slot bus disc k vs c hk
  rw [h0] at r1 r2
  have hcount : subscribes (hardwareidentify bus disc c vs).2 =
      risingEdges false (vs.map (present disc)) := by
    rw [subscribes_eq_count, r2, count_edgeOps]
  refine ⟨?_, hcount, le_of_eq hcount, ?_, ?_⟩
  · intro v hv
    rw [r1, hv]
    rfl
  · intro pre v post hsplit
    have hpre : ∀ w ∈ pre, lookup w.DeviceIdentifer = some k := by
      intro w hw
      exact hk w (by rw [hsplit]; exact List.mem_append_left _ hw)
    have hv : lookup v.DeviceIdentifer = some k :=
      hk v (by rw [hsplit]; exact List.mem_append_right _ (List.mem_cons_self _ _))
    obtain ⟨p1, _⟩ := replay_slot bus disc k pre c hpre
    rw [h0] at p1
    rw [subscribes_eq_count, step_busOps bus disc _ v k hv, p1]
    cases present disc v <;>
      cases ((pre.getLast?).map (present disc)).getD false <;> simp [edgeOps]
  · intro a s1 b s2 d hsplit h1 h2
    have hops : busOps (hardwareidentify bus disc c vs).2 =
        busOps a ++ (true :: (busOps b ++ true :: busOps d)) := by
      rw [hsplit]
      simp [busOps, List.filterMap_append, List.filterMap_cons, busOp_of_isSubscribe s1 h1,
        busOp_of_isSubscribe s2 h2]
    have halt := alternates_edgeOps false (vs.map (present disc))
    rw [← r2, hops] at halt
    obtain ⟨q, hq⟩ := alternates_suffix _ _ _ halt
    simp only [alternates, Bool.and_eq_true] at hq
    exact mem_busOps_false b (alternates_between _ _ hq.2)

/-- Witness of claim C2: connect(uid 5), disconnect for the humidity
bricklet on the initial registry. -/
theorem hardwareidentify_edge_detector_witness :
    ((Conf.init false).bricklets Key.humidity).has = false ∧
    (∀ v ∈ [Enumeration.mk 1 27 5, Enumeration.mk 2 27 5],
      lookup v.DeviceIdentifer = some Key.humidity) ∧
    subscribes (hardwareidentify (acceptAll true) 2 (Conf.init false)
        [Enumeration.mk 1 27 5, Enumeration.mk 2 27 5]).2 =
      risingEdges false
        ([Enumeration.mk 1 27 5, Enumeration.mk 2 27 5].map (present 2)) :=
  ⟨rfl, by decide,
   (hardwareidentify_edge_detector (acceptAll true) 2 (Conf.init false) Key.humidity
      [Enumeration.mk 1 27 5, Enumeration.mk 2 27 5] rfl (by decide)).2.1⟩

/-! ## Routing of readings -/

theorem String.append_ne_empty (s t : String) (h : s ≠ "") : s ++ t ≠ "" := by
  intro he
  apply h
  have hd := congrArg String.data he
  rw [String.data_append] at hd
  have hs : s.data = [] := (List.append_eq_nil.mp hd).1
  exact String.ext hs

theorem text_ne_empty (a b c : String) (h : a ≠ "") : a ++ b ++ c ≠ "" :=
  String.append_ne_empty _ _ (String.append_ne_empty _ _ h)

/-- Claim C5. For every registry state and every air-pressure reading,
`workOnResult` issues exactly one chip-temperature request, addressed to the
uid of the barometer slot, when the temperature slot is not present, and
none when it is present; routing a barometer chip-temperature reading,
through `handler` or `workOnResult`, issues no chip-temperature request: all
it issues is the display write and the console line. -/
theorem airPressure_chip_temperature (bus : Bus) (c : Conf) (v t : Float64) (err : Bool) :
    chipTemperatureRequests (workOnResult bus c (some (Resulter.AirPressure v))) =
      (if (c.bricklets Key.temperature).has = true then []
       else [(c.bricklets Key.barometer).uid]) ∧
    chipTemperatureRequests (workOnResult bus c (some (Resulter.BarometerTemperature t))) = [] ∧
    chipTemperatureRequests (handler bus c (some (Resulter.BarometerTemperature t)) err) = [] ∧
    workOnResult bus c (some (Resulter.BarometerTemperature t)) =
      (if (c.bricklets Key.lcd).has = true then
        [Call.Subscribe (some (Device.WriteLine "" (c.bricklets Key.lcd).uid
          { line := 0, pos := 0, text := "Tem.: " ++ fmtF 5 2 t ++ " °C" })) cn]
       else []) ++
      (if c.showOnConsole = true then
        [Call.Printf ("Tem.: " ++ fmtF 5 2 t ++ " °C" ++ "\n")] else []) := by
  have ha : "Air.: " ++ fmtF 7 2 v ++ " mbar" ≠ "" := text_ne_empty _ _ _ (by decide)
  have ht : "Tem.: " ++ fmtF 5 2 t ++ " °C" ≠ "" := text_ne_empty _ _ _ (by decide)
  have hw : workOnResult bus c (some (Resulter.BarometerTemperature t)) =
      (if (c.bricklets Key.lcd).has = true then
        [Call.Subscribe (some (Device.WriteLine "" (c.bricklets Key.lcd).uid
          { line := 0, pos := 0, text := "Tem.: " ++ fmtF 5 2 t ++ " °C" })) cn]
       else []) ++
      (if c.showOnConsole = true then
        [Call.Printf ("Tem.: " ++ fmtF 5 2 t ++ " °C" ++ "\n")] else []) := by
    simp only [workOnResult, ht, ne_eq, not_false_eq_true, if_true, List.nil_append]
  refine ⟨?_, ?_, ?_, hw⟩
  · simp only [workOnResult, ha, ne_eq, not_false_eq_true, if_true]
    cases (c.bricklets Key.temperature).has <;> cases (c.bricklets Key.lcd).has <;>
      cases c.showOnConsole <;> simp [chipTemperatureRequests]
  · rw [hw]
    cases (c.bricklets Key.lcd).has <;> cases c.showOnConsole <;>
      simp [chipTemperatureRequests]
  · cases err
    · have : handler bus c (some (Resulter.BarometerTemperature t)) false =
          workOnResult bus c (some (Resulter.BarometerTemperature t)) := by
        simp [handler]
      rw [this, hw]
      cases (c.bricklets Key.lcd).has <;> cases c.showOnConsole <;>
        simp [chipTemperatureRequests]
    · simp [handler, chipTemperatureRequests]

/-- Claim C6. For every button-press reading `workOnResult` queries the
backlight state once, at the uid of the LCD slot; when the answer is on it
issues exactly one backlight-off command and no backlight-on command, when
the answer is off exactly one backlight-on command and no backlight-off
command. -/
theorem button_toggles_backlight (bus : Bus) (c : Conf) :
    (workOnResult bus c (some Resulter.Button)).countP Call.isBacklightQuery = 1 ∧
    Call.IsBacklightOnFuture cn (c.bricklets Key.lcd).uid ∈
      workOnResult bus c (some Resulter.Button) ∧
    (bus.IsBacklightOnFuture cn (c.bricklets Key.lcd).uid = some true →
      workOnResult bus c (some Resulter.Button) =
        [Call.IsBacklightOnFuture cn (c.bricklets Key.lcd).uid,
         Call.BacklightOffFuture cn (c.bricklets Key.lcd).uid] ∧
      (workOnResult bus c (some Resulter.Button)).countP Call.isBacklightOff = 1 ∧
      (workOnResult bus c (some Resulter.Button)).countP Call.isBacklightOn = 0) ∧
    (bus.IsBacklightOnFuture cn (c.bricklets Key.lcd).uid = some false →
      workOnResult bus c (some Resulter.Button) =
        [Call.IsBacklightOnFuture cn (c.bricklets Key.lcd).uid,
         Call.BacklightOnFuture cn (c.bricklets Key.lcd).uid] ∧
      (workOnResult bus c (some Resulter.Button)).countP Call.isBacklightOn = 1 ∧
      (workOnResult bus c (some Resulter.Button)).countP Call.isBacklightOff = 0) := by
  have hw : workOnResult bus c (some Resulter.Button) =
      Call.IsBacklightOnFuture cn (c.bricklets Key.lcd).uid ::
        (match bus.IsBacklightOnFuture cn (c.bricklets Key.lcd).uid with
          | none => []
          | some true => [Call.BacklightOffFuture cn (c.bricklets Key.lcd).uid]
          | some false => [Call.BacklightOnFuture cn (c.bricklets Key.lcd).uid]) := by
    simp [workOnResult]
  rw [hw]
  rcases hq : bus.IsBacklightOnFuture cn (c.bricklets Key.lcd).uid with _ | _ | _ <;>
    simp [Call.isBacklightQuery, Call.isBacklightOn, Call.isBacklightOff]

/-- The display writes and console lines of `workOnResult`, for every
reading. -/
theorem workOnResult_sinks (bus : Bus) (c : Conf) (r : Option Resulter) :
    displayWrites (workOnResult bus c r) =
      (match lineOf r with
        | some line =>
          if (c.bricklets Key.lcd).has = true then
            [{ line := line, pos := 0, text := textOf r }] else []
        | none => []) ∧
    consoleLines (workOnResult bus c r) =
      (match lineOf r with
        | some _ => if c.showOnConsole = true then [textOf r ++ "\n"] else []
        | none => []) := by
  rcases r with _ | r
  · simp [workOnResult, lineOf, displayWrites, consoleLines]
  · cases r with
    | Humidity v =>
      have ht : "Hum.: " ++ fmtF 6 2 v ++ " %RH      " ≠ "" := text_ne_empty _ _ _ (by decide)
      simp only [workOnResult, ht, ne_eq, not_false_eq_true, if_true, lineOf, textOf]
      cases (c.bricklets Key.lcd).has <;> cases c.showOnConsole <;>
        simp [displayWrites, consoleLines]
    | Illuminance v =>
      have ht : "Ill.: " ++ fmtF 6 2 v ++ " lx" ≠ "" := text_ne_empty _ _ _ (by decide)
      simp only [workOnResult, ht, ne_eq, not_false_eq_true, if_true, lineOf, textOf]
      cases (c.bricklets Key.lcd).has <;> cases c.showOnConsole <;>
        simp [displayWrites, consoleLines]
    | AirPressure v =>
      have ht : "Air.: " ++ fmtF 7 2 v ++ " mbar" ≠ "" := text_ne_empty _ _ _ (by decide)
      simp only [workOnResult, ht, ne_eq, not_false_eq_true, if_true, lineOf, textOf]
      cases (c.bricklets Key.temperature).has <;> cases (c.bricklets Key.lcd).has <;>
        cases c.showOnConsole <;> simp [displayWrites, consoleLines]
    | BarometerTemperature v =>
      have ht : "Tem.: " ++ fmtF 5 2 v ++ " °C" ≠ "" := text_ne_empty _ _ _ (by decide)
      simp only [workOnResult, ht, ne_eq, not_false_eq_true, if_true, lineOf, textOf]
      cases (c.bricklets Key.lcd).has <;> cases c.showOnConsole <;>
        simp [displayWrites, consoleLines]
    | Temperature v =>
      have ht : "Tem.: " ++ fmtF 5 2 v ++ " °C" ≠ "" := text_ne_empty _ _ _ (by decide)
      simp only [workOnResult, ht, ne_eq, not_false_eq_true, if_true, lineOf, textOf]
      cases (c.bricklets Key.lcd).has <;> cases c.showOnConsole <;>
        simp [displayWrites, consoleLines]
    | Button =>
      rcases hq : bus.IsBacklightOnFuture cn (c.bricklets Key.lcd).uid with _ | _ | _ <;>
        simp [workOnResult, hq, lineOf, displayWrites, consoleLines]
    | Other tag => simp [workOnResult, lineOf, displayWrites, consoleLines]

/-- Claim C7. For every reading and every registry and configuration state:
`workOnResult` issues a display write exactly when the reading is a
text-producing variant and the LCD slot is present, and then a single one,
at column 0 on the line of the variant (humidity 1, air pressure 2,
illuminance 3, both temperature variants 0); it prints a console line
exactly when the reading is a text-producing variant and console echo is
enabled, whatever the LCD presence, and then a single one; a reading of any
other variant writes to neither sink. -/
theorem workOnResult_routing (bus : Bus) (c : Conf) (r : Option Resulter) :
    (displayWrites (workOnResult bus c r)).length =
      (if (lineOf r).isSome = true ∧ (c.bricklets Key.lcd).has = true then 1 else 0) ∧
    (∀ w ∈ displayWrites (workOnResult bus c r), w.pos = 0 ∧ lineOf r = some w.line) ∧
    (consoleLines (workOnResult bus c r)).length =
      (if (lineOf r).isSome = true ∧ c.showOnConsole = true then 1 else 0) ∧
    (lineOf r = none →
      displayWrites (workOnResult bus c r) = [] ∧ consoleLines (workOnResult bus c r) = []) ∧
    (∀ v, lineOf (some (Resulter.Humidity v)) = some 1) ∧
    (∀ v, lineOf (some (Resulter.AirPressure v)) = some 2) ∧
    (∀ v, lineOf (some (Resulter.Illuminance v)) = some 3) ∧
    (∀ v, lineOf (some (Resulter.BarometerTemperature v)) = some 0) ∧
    (∀ v, lineOf (some (Resulter.Temperature v)) = some 0) ∧
    (∀ tag, lineOf (some (Resulter.Other tag)) = none) := by
  obtain ⟨hd, hc⟩ := workOnResult_sinks bus c r
  rw [hd, hc]
  refine ⟨?_, ?_, ?_, ?_, fun _ => rfl, fun _ => rfl, fun _ => rfl, fun _ => rfl,
    fun _ => rfl, fun _ => rfl⟩
  · cases hl : lineOf r <;> cases (c.bricklets Key.lcd).has <;> simp
  · cases hl : lineOf r <;> cases (c.bricklets Key.lcd).has <;> simp
  · cases hl : lineOf r <;> cases c.showOnConsole <;> simp
  · intro hl
    rw [hl]
    exact ⟨rfl, rfl⟩

/-- The value 55.25 is printed by `%6.2f` as a blank followed by `55.25`. -/
theorem fmtF_55_25 (v : Float64) (hv : v.num * 4 = 221 * 2 ^ v.exp) :
    fmtF 6 2 v = " 55.25" := by
  rcases v with ⟨num, exp⟩
  simp only at hv
  have hexp : 2 ≤ exp := by
    by_contra hlt
    have h01 : exp = 0 ∨ exp = 1 := by omega
    rcases h01 with h | h <;> subst h <;> norm_num at hv <;> omega
  obtain ⟨e, rfl⟩ : ∃ e, exp = e + 2 := ⟨exp - 2, by omega⟩
  have hnum : num = ((221 * 2 ^ e : Nat) : Int) := by
    push_cast
    rw [pow_add] at hv
    linarith
  subst hnum
  have hd : 0 < 2 ^ (e + 2) := Nat.pow_pos (by decide)
  have hscale : 221 * 2 ^ e * 10 ^ 2 = 5525 * 2 ^ (e + 2) := by ring
  have hr : roundHalfEven ((((221 * 2 ^ e : Nat) : Int)).natAbs * 10 ^ 2) (2 ^ (e + 2)) =
      5525 := by
    rw [Int.natAbs_ofNat, hscale]
    unfold roundHalfEven
    simp only [Nat.mul_div_cancel _ hd, Nat.mul_mod_left]
    have hne : ¬ (2 * 0 > 2 ^ (e + 2) ∨ (2 * 0 = 2 ^ (e + 2) ∧ True)) := by
      omega
    rw [if_neg hne]
  have hneg : ¬ (((221 * 2 ^ e : Nat) : Int) < 0) := by
    exact not_lt.mpr (Int.ofNat_nonneg _)
  unfold fmtF
  simp only [hr, hneg, if_false]
  decide

/-- Counterexample to claim C8 as stated: with the LCD present and console
echo disabled, the humidity reading 55.25 (221 / 2 ^ 2) produces one display
write to line 1 whose text has two blanks after the colon, the verb `%6.2f`
padding `55.25` to six characters; it is not the text of the claim, which
has one blank there. -/
theorem humidity_text_is_padded :
    workOnResult (acceptAll true)
        ((Conf.init false).set Key.lcd
          { has := true, sub := some (Device.ButtonPressed "Button" 7), uid := 7 })
        (some (Resulter.Humidity (Float64.mk 221 2))) =
      [Call.Subscribe
        (some (Device.WriteLine "" 7 { line := 1, pos := 0, text := "Hum.:  55.25 %RH      " }))
        "ws"] ∧
    displayWrites (workOnResult (acceptAll true)
        ((Conf.init false).set Key.lcd
          { has := true, sub := some (Device.ButtonPressed "Button" 7), uid := 7 })
        (some (Resulter.Humidity (Float64.mk 221 2)))) ≠
      [{ line := 1, pos := 0, text := "Hum.: 55.25 %RH      " }] := by
  decide

/-- Claim C8, amended. With the LCD slot present, routing a humidity reading
whose value is 55.25 produces, with console echo disabled, exactly one
display write, of the text `Hum.:  55.25 %RH      ` (two blanks after the
colon) at column 0 of line 1, and no console output; with console echo
enabled, the same display write followed by the same text printed on the
console. -/
theorem humidity_55_25 (bus : Bus) (c : Conf) (v : Float64)
    (hv : v.num * 4 = 221 * 2 ^ v.exp) (hlcd : (c.bricklets Key.lcd).has = true) :
    (c.showOnConsole = false →
      workOnResult bus c (some (Resulter.Humidity v)) =
        [Call.Subscribe (some (Device.WriteLine "" (c.bricklets Key.lcd).uid
          { line := 1, pos := 0, text := "Hum.:  55.25 %RH      " })) cn]) ∧
    (c.showOnConsole = true →
      workOnResult bus c (some (Resulter.Humidity v)) =
        [Call.Subscribe (some (Device.WriteLine "" (c.bricklets Key.lcd).uid
          { line := 1, pos := 0, text := "Hum.:  55.25 %RH      " })) cn,
         Call.Printf "Hum.:  55.25 %RH      \n"]) := by
  have htxt : "Hum.: " ++ fmtF 6 2 v ++ " %RH      " = "Hum.:  55.25 %RH      " := by
    rw [fmtF_55_25 v hv]
    decide
  have hne : "Hum.:  55.25 %RH      " ≠ "" := by decide
  have hnl : "Hum.:  55.25 %RH      " ++ "\n" = "Hum.:  55.25 %RH      \n" := by decide
  constructor
  · intro hoff
    simp only [workOnResult, htxt, hne, hlcd, hoff, ne_eq, not_false_eq_true, if_true]
    simp
  · intro hon
    simp only [workOnResult, htxt, hne, hlcd, hon, hnl, ne_eq, not_false_eq_true, if_true]
    simp

/-- Witness of claim C8: the value 221 / 2 ^ 2 and a registry whose LCD slot
is present with uid 7. -/
theorem humidity_55_25_witness :
    (Float64.mk 221 2).num * 4 = 221 * 2 ^ (Float64.mk 221 2).exp ∧
    (((Conf.init true).set Key.lcd
      { has := true, sub := some (Device.ButtonPressed "Button" 7), uid := 7 }).bricklets
        Key.lcd).has = true ∧
    (((Conf.init true).set Key.lcd
      { has := true, sub := some (Device.ButtonPressed "Button" 7), uid := 7 }).showOnConsole
        = true →
      workOnResult (acceptAll true)
        ((Conf.init true).set Key.lcd
          { has := true, sub := some (Device.ButtonPressed "Button" 7), uid := 7 })
        (some (Resulter.Humidity (Float64.mk 221 2))) =
      [Call.Subscribe (some (Device.WriteLine ""
          (((Conf.init true).set Key.lcd
            { has := true, sub := some (Device.ButtonPressed "Button" 7), uid := 7 }).bricklets
              Key.lcd).uid
          { line := 1, pos := 0, text := "Hum.:  55.25 %RH      " })) cn,
       Call.Printf "Hum.:  55.25 %RH      \n"]) :=
  ⟨by decide, by decide,
   (humidity_55_25 (acceptAll true)
      ((Conf.init true).set Key.lcd
        { has := true, sub := some (Device.ButtonPressed "Button" 7), uid := 7 })
      (Float64.mk 221 2) (by decide) (by decide)).2⟩

/-! ## Uids of teardown requests and of subscribers -/

/-- Claim C9, the code at the failing input: for each of the four sensor
types, connect(uid 5) followed by disconnect issues the period-1000 request
to uid 5 and the period-0 request to uid 0, not to uid 5. -/
theorem teardown_addressed_to_uid_zero :
    (hardwareidentify (acceptAll true) 2 (Conf.init false)
        [Enumeration.mk 1 27 5, Enumeration.mk 2 27 5]).2 =
      [Call.Subscribe (some (Device.HumidityPeriod "Humidity" 5)) "ws",
       Call.SetHumidityCallbackPeriodFuture "ws" 5 1000,
       Call.Unsubscribe (some (Device.HumidityPeriod "Humidity" 5)),
       Call.SetHumidityCallbackPeriodFuture "ws" 0 0] ∧
    (hardwareidentify (acceptAll true) 2 (Conf.init false)
        [Enumeration.mk 1 21 5, Enumeration.mk 2 21 5]).2 =
      [Call.Subscribe (some (Device.IlluminancePeriod "Illuminance" 5)) "ws",
       Call.SetIlluminanceCallbackPeriodFuture "ws" 5 1000,
       Call.Unsubscribe (some (Device.IlluminancePeriod "Illuminance" 5)),
       Call.SetIlluminanceCallbackPeriodFuture "ws" 0 0] ∧
    (hardwareidentify (acceptAll true) 2 (Conf.init false)
        [Enumeration.mk 1 221 5, Enumeration.mk 2 221 5]).2 =
      [Call.Subscribe (some (Device.AirPressurePeriod "AirPressure" 5)) "ws",
       Call.SetAirPressureCallbackPeriodFuture "ws" 5 1000,
       Call.Unsubscribe (some (Device.AirPressurePeriod "AirPressure" 5)),
       Call.SetAirPressureCallbackPeriodFuture "ws" 0 0] ∧
    (hardwareidentify (acceptAll true) 2 (Conf.init false)
        [Enumeration.mk 1 216 5, Enumeration.mk 2 216 5]).2 =
      [Call.Subscribe (some (Device.TemperaturePeriod "Temperature" 5)) "ws",
       Call.SetTemperatureCallbackPeriodFuture "ws" 5 1000,
       Call.Unsubscribe (some (Device.TemperaturePeriod "Temperature" 5)),
       Call.SetTemperatureCallbackPeriodFuture "ws" 0 0] := by
  decide

/-- Claim C10, the code at the failing inputs. After connect(uid 5),
disconnect, connect(uid 7) for the humidity bricklet the slot records uid 7
and the second subscribe hands over the subscriber constructed for uid 5;
after disconnect, connect(uid 5) for the temperature bricklet the subscribe
hands over a subscriber constructed for uid 0. -/
theorem subscriber_keeps_first_uid :
    (hardwareidentify (acceptAll true) 2 (Conf.init false)
        [Enumeration.mk 1 27 5, Enumeration.mk 2 27 5, Enumeration.mk 1 27 7]).2 =
      [Call.Subscribe (some (Device.HumidityPeriod "Humidity" 5)) "ws",
       Call.SetHumidityCallbackPeriodFuture "ws" 5 1000,
       Call.Unsubscribe (some (Device.HumidityPeriod "Humidity" 5)),
       Call.SetHumidityCallbackPeriodFuture "ws" 0 0,
       Call.Subscribe (some (Device.HumidityPeriod "Humidity" 5)) "ws",
       Call.SetHumidityCallbackPeriodFuture "ws" 7 1000] ∧
    ((hardwareidentify (acceptAll true) 2 (Conf.init false)
        [Enumeration.mk 1 27 5, Enumeration.mk 2 27 5, Enumeration.mk 1 27 7]).1.bricklets
          Key.humidity) =
      { has := true, sub := some (Device.HumidityPeriod "Humidity" 5), uid := 7 } ∧
    (hardwareidentify (acceptAll true) 2 (Conf.init false)
        [Enumeration.mk 2 216 5, Enumeration.mk 1 216 5]).2 =
      [Call.Subscribe (some (Device.TemperaturePeriod "Temperature" 0)) "ws",
       Call.SetTemperatureCallbackPeriodFuture "ws" 5 1000] ∧
    ((hardwareidentify (acceptAll true) 2 (Conf.init false)
        [Enumeration.mk 2 216 5, Enumeration.mk 1 216 5]).1.bricklets Key.temperature) =
      { has := true, sub := some (Device.TemperaturePeriod "Temperature" 0), uid := 5 } := by
  decide

end Weatherstation
